import Mathlib

/-!
Verification of the leopictos-app two-tier caching subsystem.

Shallow embedding of:
- `src/services/cacheService.ts` — the IndexedDB-backed structured store
  (per-entry TTL, lazy expiry, invalidation helpers);
- `src/services/apiService.ts` — the cache coordinator wrapping the REST
  calls (`createPictogram`, `listPictograms`, `updatePictogram`, ...);
- `src/public/sw.js` — the service-worker request proxy with its three
  caching strategies and lifecycle handlers.

Conventions of the embedding:
- JavaScript `Date.now()` readings are passed in explicitly as `Nat`
  arguments, one argument per syntactic `Date.now()` call in the source;
  the platform clock is monotone, so later readings are `≥` earlier ones.
- The IndexedDB object store is modelled as an association list from
  string keys to cache entries; `store.put` overwrites, `store.delete`
  removes, `store.get` looks up.
- The outcome of each `fetch` call is an explicit argument: either the promise
  rejects (network failure) or it resolves with a response carrying an
  HTTP status and a body.
- Async functions are sequentialised: each embedded operation is a state
  transformer on the store, and a value of an `Except`/sum type records
  whether the returned promise resolves or rejects.
-/

namespace Leopictos

/-- Association list with exact-key lookup, modelling both the IndexedDB
object store and the service-worker Cache partitions. -/
abbrev AList (κ ν : Type) := List (κ × ν)

namespace AList

variable {κ ν : Type} [DecidableEq κ]

/-- Exact-key lookup (`store.get(key)` / `cache.match(request)`). -/
def lookup : AList κ ν → κ → Option ν
  | [], _ => none
  | kv :: tl, k => if kv.1 = k then some kv.2 else lookup tl k

/-- Key removal (`store.delete(key)` / `caches.delete`): idempotent. -/
def erase : AList κ ν → κ → AList κ ν
  | [], _ => []
  | kv :: tl, k => if kv.1 = k then erase tl k else kv :: erase tl k

/-- Upsert (`store.put` / `cache.put`): silently overwrites. -/
def insert (l : AList κ ν) (k : κ) (v : ν) : AList κ ν :=
  (k, v) :: erase l k

theorem lookup_insert_self (l : AList κ ν) (k : κ) (v : ν) :
    (insert l k v).lookup k = some v := by
  simp [insert, lookup]

theorem lookup_erase_self (l : AList κ ν) (k : κ) :
    (erase l k).lookup k = none := by
  induction l with
  | nil => rfl
  | cons kv tl ih =>
    by_cases h : kv.1 = k <;> simp [erase, lookup, h, ih]

theorem lookup_erase_ne (l : AList κ ν) (k k' : κ) (h : k' ≠ k) :
    (erase l k).lookup k' = l.lookup k' := by
  have h' : k ≠ k' := Ne.symm h
  induction l with
  | nil => rfl
  | cons kv tl ih =>
    by_cases h1 : kv.1 = k
    · have h2 : kv.1 ≠ k' := fun hc => h (hc ▸ h1)
      simp [erase, lookup, h1, h2, h, h', ih]
    · by_cases h2 : kv.1 = k' <;> simp [erase, lookup, h1, h2, h, h', ih]

theorem lookup_insert_ne (l : AList κ ν) (k k' : κ) (v : ν) (h : k' ≠ k) :
    (insert l k v).lookup k' = l.lookup k' := by
  have h1 : k ≠ k' := Ne.symm h
  simp [insert, lookup, h1, lookup_erase_ne l k k' h]

end AList

/-! ## Data model (`src/types.ts`, `src/services/cacheService.ts`) -/

/-- A pictogram JSON object as it travels through the untyped JS layer:
every field is optional, because partial updates (`Partial<Pictogram>`)
and the synthesized `\x7bid, ...updates\x7d` record genuinely lack fields.
Fields beyond these four carry no logic in the cache subsystem. -/
structure PictogramObj where
  id : Option String := none
  word : Option String := none
  imageUrl : Option String := none
  createdAt : Option Nat := none
  deriving Repr, DecidableEq

/-- The values stored in the single `pictograms` object store: the list
projection holds a whole collection, entity keys hold one record. -/
inductive CacheData where
  | item : PictogramObj → CacheData
  | list : List PictogramObj → CacheData
  deriving Repr, DecidableEq

/-- Model of `CacheEntry<T>` of cacheService.ts: payload plus write time and
expiry instant (milliseconds). -/
structure CacheEntry where
  data : CacheData
  timestamp : Nat
  expiresAt : Nat
  deriving Repr, DecidableEq

/-- The IndexedDB object store `pictograms`, keyed by string id. -/
abbrev Store := AList String CacheEntry

/-- Constant `LIST_CACHE_KEY` (the string "__list__"): the reserved key of the list projection. -/
def LIST_CACHE_KEY : String := "__list__"

/-- Constant `CACHE_TTL = 5 * 60 * 1000`: default TTL in milliseconds. -/
def CACHE_TTL : Nat := 5 * 60 * 1000

/-! ## Structured store operations (`src/services/cacheService.ts`),
fault-free storage path -/

/-- Model of `getFromCache(key)` with a healthy storage backend. `now` is the
`Date.now()` reading of the expiry check. On a present entry with
`now > expiresAt` the code fires `deleteFromCache(key)` (not awaited; it
completes against the store) and resolves `null`; otherwise it resolves
the stored data. Returns (resolved value, resulting store). -/
def getFromCache (now : Nat) (key : String) (s : Store) :
    Option CacheData × Store :=
  match s.lookup key with
  | none => (none, s)
  | some entry =>
    if now > entry.expiresAt then (none, s.erase key)
    else (some entry.data, s)

/-- Model of `saveToCache(key, data, ttl)` with a healthy backend. The source
reads the clock twice — `timestamp: Date.now(), expiresAt: Date.now() + ttl`
— so the embedding takes both readings: `t1` for `timestamp`, `t2` for
the base of `expiresAt`. Monotone clock: `t1 ≤ t2`. -/
def saveToCache (key : String) (data : CacheData) (ttl : Nat)
    (t1 t2 : Nat) (s : Store) : Store :=
  s.insert key { data := data, timestamp := t1, expiresAt := t2 + ttl }

/-- Model of `deleteFromCache(key)` with a healthy backend. -/
def deleteFromCache (key : String) (s : Store) : Store :=
  s.erase key

/-- Model of `invalidatePictogramListCache()`: deletes the list projection key. -/
def invalidatePictogramListCache (s : Store) : Store :=
  deleteFromCache LIST_CACHE_KEY s

/-- Model of `invalidatePictogramCache(id)`: deletes the entity key, then the
list key. -/
def invalidatePictogramCache (id : String) (s : Store) : Store :=
  invalidatePictogramListCache (deleteFromCache id s)

/-! ## Structured store operations with storage faults

Each cacheService function has the shape

  try \x7b await initDB(); ...; return new Promise(...) \x7d catch (e) \x7b ... \x7d

Two distinct failure points exist:
- `backendDown`: `initDB()` rejects (or `db.transaction` throws) — this
  happens under the `await`/synchronous part, so the `catch` block runs
  (`getFromCache` returns `null`, `saveToCache`/`deleteFromCache` resolve
  normally after logging);
- `requestError`: the IDB request itself fires `onerror` (e.g. quota
  exceeded on a write, aborted transaction on a read), rejecting the inner
  promise. That promise is RETURNED from the `try` block without `await`,
  so its rejection is adopted by the promise of the async function and the
  `catch` block never runs: the rejection propagates to the caller. -/

inductive StorageFault where
  | healthy
  | backendDown
  | requestError
  deriving Repr, DecidableEq

/-- A storage error observed by the caller (the rejection value). -/
structure StorageError where
  deriving Repr, DecidableEq

/-- Model of `getFromCache` with the storage fault made explicit. `Except.error`
means the promise returned to the caller rejects. -/
def getFromCacheF (f : StorageFault) (now : Nat) (key : String)
    (s : Store) : Except StorageError (Option CacheData) × Store :=
  match f with
  | .healthy =>
    let r := getFromCache now key s
    (Except.ok r.1, r.2)
  | .backendDown => (Except.ok none, s)
  | .requestError => (Except.error {}, s)

/-- Model of `saveToCache` with the storage fault made explicit. -/
def saveToCacheF (f : StorageFault) (key : String) (data : CacheData)
    (ttl : Nat) (t1 t2 : Nat) (s : Store) :
    Except StorageError Unit × Store :=
  match f with
  | .healthy => (Except.ok (), saveToCache key data ttl t1 t2 s)
  | .backendDown => (Except.ok (), s)
  | .requestError => (Except.error {}, s)

/-- Model of `deleteFromCache` with the storage fault made explicit. -/
def deleteFromCacheF (f : StorageFault) (key : String) (s : Store) :
    Except StorageError Unit × Store :=
  match f with
  | .healthy => (Except.ok (), deleteFromCache key s)
  | .backendDown => (Except.ok (), s)
  | .requestError => (Except.error {}, s)

/-! ## Cache coordinator (`src/services/apiService.ts`) -/

/-- Predicate `Response.ok`: HTTP status in the range 200 to 299. -/
def respOk (status : Nat) : Bool :=
  200 ≤ status && status < 300

/-- Outcome of one `fetch` call whose JSON body has type `α`: the promise
either rejects (network failure) or resolves with a status and body. -/
inductive Fetch (α : Type) where
  | reject
  | response (status : Nat) (body : α)
  deriving Repr, DecidableEq

/-- Errors thrown by the coordinator functions. -/
inductive NetError where
  | fetchRejected
  | badStatus (status : Nat)
  deriving Repr, DecidableEq

/-- The JS object literal `\x7bid, ...updates\x7d`: field `id` set first,
then every field present in `updates` spread over it (so an `id` inside
`updates` wins). -/
def mergeIdUpdates (id : String) (u : PictogramObj) : PictogramObj :=
  { u with id := some (u.id.getD id) }

/-- Outcome of `updatePictogram`: the returned promise either resolves
with a pictogram object or rejects; the store is threaded through. -/
inductive UpdateOutcome where
  | resolved (value : PictogramObj) (store : Store)
  | rejected (store : Store)
  deriving Repr, DecidableEq

/-- Returns `true` iff the promise of the update call resolves. -/
def UpdateOutcome.resolves : UpdateOutcome → Bool
  | .resolved _ _ => true
  | .rejected _ => false

/-- Model of `updatePictogram(id, updates)`. The body has no try/catch: a rejected
`fetch` propagates. A completed non-ok response takes the soft-failure
branch: log a warning, `invalidatePictogramCache(id)`, and resolve with
the synthesized `\x7bid, ...updates\x7d`. An ok response parses the
record sent by the server, invalidates, and resolves with it. -/
def updatePictogram (net : Fetch PictogramObj) (id : String)
    (updates : PictogramObj) (s : Store) : UpdateOutcome :=
  match net with
  | .reject => .rejected s
  | .response status body =>
    if respOk status then
      .resolved body (invalidatePictogramCache id s)
    else
      .resolved (mergeIdUpdates id updates) (invalidatePictogramCache id s)

/-- Model of `createPictogram(pictogram)`: POST; non-ok throws; on success parses
the created record, invalidates the list key, returns the record. The
request body plays no role in the control flow and is omitted. -/
def createPictogram (net : Fetch PictogramObj) (s : Store) :
    Except NetError PictogramObj × Store :=
  match net with
  | .reject => (Except.error .fetchRejected, s)
  | .response status body =>
    if respOk status then
      (Except.ok body, invalidatePictogramListCache s)
    else
      (Except.error (.badStatus status), s)

/-- Observable outcome of `listPictograms`: the resolved/rejected value,
the resulting store, and whether the network was touched at all. -/
structure ListOutcome where
  result : Except NetError CacheData
  store : Store
  usedNetwork : Bool
  deriving Repr

/-- Model of `listPictograms(userId?)`. Unfiltered calls consult the list cache
first (`now` is the clock reading of the expiry check) and return any
cached value without fetching; on a miss they fetch, and on an ok
response cache the body under the list key with the default TTL (`t1`,
`t2` are the two `Date.now()` readings inside `saveToCache`). Filtered
calls (`userId` present) bypass the cache in both directions. -/
def listPictograms (userId : Option String)
    (net : Fetch (List PictogramObj)) (now t1 t2 : Nat) (s : Store) :
    ListOutcome :=
  match userId with
  | some _ =>
    match net with
    | .reject => ⟨Except.error .fetchRejected, s, true⟩
    | .response status body =>
      if respOk status then ⟨Except.ok (.list body), s, true⟩
      else ⟨Except.error (.badStatus status), s, true⟩
  | none =>
    match getFromCache now LIST_CACHE_KEY s with
    | (some cached, s1) => ⟨Except.ok cached, s1, false⟩
    | (none, s1) =>
      match net with
      | .reject => ⟨Except.error .fetchRejected, s1, true⟩
      | .response status body =>
        if respOk status then
          ⟨Except.ok (.list body),
            saveToCache LIST_CACHE_KEY (.list body) CACHE_TTL t1 t2 s1, true⟩
        else ⟨Except.error (.badStatus status), s1, true⟩

/-! ## Request proxy (`src/public/sw.js`) -/

/-- An intercepted request: method plus URL, the request identity used
by the Cache API lookups. -/
structure Request where
  method : String
  url : String
  deriving Repr, DecidableEq

/-- An opaque HTTP response: status plus byte payload. -/
structure SWResponse where
  status : Nat
  body : String
  deriving Repr, DecidableEq

/-- One named Cache partition: request identity to stored response. -/
abbrev SWCache := AList Request SWResponse

/-- Outcome of one `fetch(request)` inside the service worker. -/
inductive FetchR where
  | reject
  | success (resp : SWResponse)
  deriving Repr, DecidableEq

/-- Result of a strategy: the promise handed to `event.respondWith`
either resolves with a response (`some`), resolves with `undefined`
(`none`), or rejects (`Except.error`); the partition is threaded. -/
abbrev StrategyResult := Except Unit (Option SWResponse) × SWCache

/-- Model of `cacheFirstStrategy(request, cacheName)`: cache hit returns the
stored response without any fetch; miss fetches, stores a copy when the
response is ok, and returns the network response; a rejected fetch is
logged and rethrown by the catch block. -/
def cacheFirstStrategy (req : Request) (net : FetchR) (c : SWCache) :
    StrategyResult :=
  match c.lookup req with
  | some cached => (Except.ok (some cached), c)
  | none =>
    match net with
    | .reject => (Except.error (), c)
    | .success resp =>
      if respOk resp.status then
        (Except.ok (some resp), c.insert req resp)
      else
        (Except.ok (some resp), c)

/-- Model of `networkFirstStrategy(request, cacheName)`: always fetch first; on a
resolved response, store a copy exactly when it is ok and the method is
GET, and return it; on a rejected fetch, fall back to the cached copy if
present, else rethrow the fetch error. -/
def networkFirstStrategy (req : Request) (net : FetchR) (c : SWCache) :
    StrategyResult :=
  match net with
  | .success resp =>
    if respOk resp.status && req.method == "GET" then
      (Except.ok (some resp), c.insert req resp)
    else
      (Except.ok (some resp), c)
  | .reject =>
    match c.lookup req with
    | some cached => (Except.ok (some cached), c)
    | none => (Except.error (), c)

/-- Model of `staleWhileRevalidateStrategy(request, cacheName)`: with a cached
copy, resolve with it immediately while the background fetch updates the
partition for next time (its failure is swallowed by the catch); without
one, await the fetch, whose rejection resolves to the absent cached
response (`undefined`, here `none`) via `.catch(() => cachedResponse)`,
so the promise of the strategy never rejects. -/
def staleWhileRevalidateStrategy (req : Request) (net : FetchR)
    (c : SWCache) : Option SWResponse × SWCache :=
  match c.lookup req with
  | some cached =>
    (some cached,
      match net with
      | .success resp =>
        if respOk resp.status then c.insert req resp else c
      | .reject => c)
  | none =>
    match net with
    | .success resp =>
      (some resp, if respOk resp.status then c.insert req resp else c)
    | .reject => (none, c)

/-! ## Proxy lifecycle and message channel (`src/public/sw.js`) -/

/-- Effects a service-worker event handler can issue. -/
inductive SWEffect where
  | precacheStatic (assets : List String)
  | skipWaiting
  | claimClients
  | deleteCache (name : String)
  | deleteAllCaches
  deriving Repr, DecidableEq

/-- Environment of one install run: whether the `cache.addAll` pre-cache
succeeds. Its failure is caught and logged, never fatal. -/
structure InstallEnv where
  precacheOk : Bool
  deriving Repr, DecidableEq

/-- The `install` listener: `waitUntil` the static pre-cache (failures
tolerated by the `.catch`), then call `self.skipWaiting()`
unconditionally — no branch inspects the event or any message. -/
def installHandler (_env : InstallEnv) : List SWEffect :=
  [.precacheStatic ["/", "/index.html", "/manifest.json"], .skipWaiting]

/-- Messages accepted by the `message` listener. -/
inductive SWMessage where
  | invalidateCache (cacheName : Option String)
  | skipWaitingMsg
  | other
  deriving Repr, DecidableEq

/-- The `message` listener: `INVALIDATE_CACHE` deletes the named
partition (or all partitions), `SKIP_WAITING` calls `self.skipWaiting()`,
anything else is ignored. -/
def messageHandler : SWMessage → List SWEffect
  | .invalidateCache (some name) => [.deleteCache name]
  | .invalidateCache none => [.deleteAllCaches]
  | .skipWaitingMsg => [.skipWaiting]
  | .other => []

/-- Service-worker lifecycle states. -/
inductive SWState where
  | installing
  | waiting
  | activating
  | active
  deriving Repr, DecidableEq

/-- Lifecycle step after install completes: a worker whose install run
called `skipWaiting` proceeds straight to activation; otherwise it sits
in the waiting state until released. -/
def lifecycleAfterInstall (effs : List SWEffect) : SWState :=
  if SWEffect.skipWaiting ∈ effs then .activating else .waiting

/-! ## Sample values used by the witness theorems -/

/-- A concrete pictogram record. -/
def samplePic : PictogramObj :=
  { id := some "p1", word := some "CASA", imageUrl := some "img", createdAt := some 10 }

/-- A concrete partial update (no `id` field, as `Partial<Pictogram>`
updates typically carry only the changed fields). -/
def sampleUpd : PictogramObj := { word := some "PERRO" }

/-- A concrete, unexpired list-projection entry. -/
def sampleEntry : CacheEntry :=
  { data := .list [samplePic], timestamp := 0, expiresAt := 300000 }

/-- A store holding the list projection and one entity record. -/
def sampleStore : Store :=
  [(LIST_CACHE_KEY, sampleEntry),
   ("p1", { data := .item samplePic, timestamp := 0, expiresAt := 300000 })]

/-- A concrete GET request on the API origin. -/
def sampleReq : Request :=
  { method := "GET", url := "https://api.example.com/dev/pictograms" }

/-- A concrete POST request on the API origin. -/
def samplePost : Request :=
  { method := "POST", url := "https://api.example.com/dev/pictograms" }

/-- A concrete ok response. -/
def sampleResp : SWResponse := { status := 200, body := "payload" }

/-! ## Claims -/

/-- C1: for every update call that receives a completed non-2xx HTTP
response, `updatePictogram(id, updates)` resolves (never rejects) with
the synthesized record `\x7bid, ...updates\x7d`, and as a side effect
both the entity cache entry for `id` and the list cache entry are
invalidated (absent from the resulting store). -/
theorem updatePictogram_soft_failure (id : String) (u : PictogramObj)
    (s : Store) (status : Nat) (body : PictogramObj)
    (h : respOk status = false) :
    updatePictogram (.response status body) id u s =
      .resolved (mergeIdUpdates id u) (invalidatePictogramCache id s) ∧
    (invalidatePictogramCache id s).lookup id = none ∧
    (invalidatePictogramCache id s).lookup LIST_CACHE_KEY = none := by
  refine ⟨by simp [updatePictogram, h], ?_, AList.lookup_erase_self _ _⟩
  by_cases hk : id = LIST_CACHE_KEY
  · rw [invalidatePictogramCache, invalidatePictogramListCache,
      deleteFromCache, deleteFromCache, hk]
    exact AList.lookup_erase_self _ _
  · rw [invalidatePictogramCache, invalidatePictogramListCache,
      deleteFromCache, deleteFromCache, AList.lookup_erase_ne _ _ _ hk]
    exact AList.lookup_erase_self _ _

/-- Witness for C1 at a 404 response on a populated store. -/
theorem updatePictogram_soft_failure_witness :
    respOk 404 = false ∧
    (updatePictogram (.response 404 samplePic) "p1" sampleUpd sampleStore =
      .resolved (mergeIdUpdates "p1" sampleUpd)
        (invalidatePictogramCache "p1" sampleStore) ∧
    (invalidatePictogramCache "p1" sampleStore).lookup "p1" = none ∧
    (invalidatePictogramCache "p1" sampleStore).lookup LIST_CACHE_KEY = none) :=
  ⟨by decide,
    updatePictogram_soft_failure "p1" sampleUpd sampleStore 404 samplePic (by decide)⟩

/-- C2 (code bug): a storage failure raised by the IDB request itself
(`request.onerror`, e.g. quota exceeded on a write or an aborted
transaction on a read) is NOT swallowed: the inner promise is returned
from the `try` block without `await`, so the `catch` never runs and the
rejection surfaces to the caller of `getFromCache`/`saveToCache`,
contradicting the store-behaves-as-empty claim. Only the backend-down
failure point (`initDB` rejecting) is swallowed as claimed. -/
theorem cacheService_requestError_surfaces :
    (getFromCacheF .requestError 0 "p1" sampleStore).1 = Except.error {} ∧
    (saveToCacheF .requestError LIST_CACHE_KEY (.list []) CACHE_TTL 0 0
      sampleStore).1 = Except.error {} ∧
    (deleteFromCacheF .requestError "p1" sampleStore).1 = Except.error {} ∧
    (getFromCacheF .backendDown 0 "p1" sampleStore).1 = Except.ok none ∧
    (saveToCacheF .backendDown LIST_CACHE_KEY (.list []) CACHE_TTL 0 0
      sampleStore).1 = Except.ok () :=
  ⟨rfl, rfl, rfl, rfl, rfl⟩

/-- C3 counterexample: when the fetch itself rejects, `updatePictogram`
does NOT resolve with the optimistic synthesized result — its promise
rejects (there is no try/catch around the fetch). -/
theorem updatePictogram_reject_not_resolved :
    (updatePictogram .reject "p1" sampleUpd sampleStore).resolves = false :=
  rfl

/-- C3 amended: a rejected fetch propagates out of `updatePictogram`
unchanged, leaving the store untouched; the optimistic degradation to
`\x7bid, ...updates\x7d` applies only to completed non-2xx responses. -/
theorem updatePictogram_fetch_reject_propagates (id : String)
    (u : PictogramObj) (s : Store) :
    updatePictogram .reject id u s = .rejected s :=
  rfl

/-- C4 counterexample: `saveToCache` reads `Date.now()` twice; when the
clock ticks between the `timestamp` read (0) and the `expiresAt` read
(1), the written entry has `expiresAt = 6 ≠ timestamp + ttl = 5`. -/
theorem saveToCache_invariant_counterexample :
    (saveToCache "k" (CacheData.list []) 5 0 1 []).lookup "k" =
      some { data := CacheData.list [], timestamp := 0, expiresAt := 6 } ∧
    ({ data := CacheData.list [], timestamp := 0, expiresAt := 6 :
        CacheEntry }).expiresAt ≠
      ({ data := CacheData.list [], timestamp := 0, expiresAt := 6 :
        CacheEntry }).timestamp + 5 :=
  ⟨rfl, by decide⟩

/-- C4 amended: the entry written by `put(key, payload, ttl)` with clock
readings `t1` (timestamp) and `t2` (expiry base), `t1 ≤ t2` by clock
monotonicity, satisfies `timestamp + ttl ≤ expiresAt`, with equality
whenever the two `Date.now()` readings coincide (the typical case of a
same-millisecond execution). -/
theorem saveToCache_expiry_bound (key : String) (d : CacheData)
    (ttl t1 t2 : Nat) (s : Store) (h : t1 ≤ t2) :
    (saveToCache key d ttl t1 t2 s).lookup key =
      some { data := d, timestamp := t1, expiresAt := t2 + ttl } ∧
    t1 + ttl ≤ t2 + ttl ∧
    (t1 = t2 → t2 + ttl = t1 + ttl) :=
  ⟨AList.lookup_insert_self _ _ _, Nat.add_le_add_right h _,
    fun he => by rw [he]⟩

/-- Witness for C4-amended with both readings equal to 7. -/
theorem saveToCache_expiry_bound_witness :
    (7 : Nat) ≤ 7 ∧
    ((saveToCache "k" (CacheData.list []) 5 7 7 []).lookup "k" =
      some { data := CacheData.list [], timestamp := 7, expiresAt := 7 + 5 } ∧
    7 + 5 ≤ 7 + 5 ∧
    ((7 : Nat) = 7 → 7 + 5 = 7 + 5)) :=
  ⟨le_refl 7, saveToCache_expiry_bound "k" (CacheData.list []) 5 7 7 [] (le_refl 7)⟩

/-- C5: after `put(k, v, ttl)` with clock readings `t1 ≤ t2`, a `get(k)`
at any instant strictly past the stored `expiresAt` resolves `null` and
physically deletes the entry: it is absent from the resulting store, not
merely hidden. -/
theorem get_after_expiry (key : String) (d : CacheData)
    (ttl t1 t2 now : Nat) (s : Store)
    (_h0 : 0 < ttl) (_h1 : t1 ≤ t2) (h2 : t2 + ttl < now) :
    (getFromCache now key (saveToCache key d ttl t1 t2 s)).1 = none ∧
    ((getFromCache now key (saveToCache key d ttl t1 t2 s)).2).lookup key =
      none := by
  have hl : (saveToCache key d ttl t1 t2 s).lookup key =
      some { data := d, timestamp := t1, expiresAt := t2 + ttl } :=
    AList.lookup_insert_self _ _ _
  have hres : getFromCache now key (saveToCache key d ttl t1 t2 s) =
      (none, (saveToCache key d ttl t1 t2 s).erase key) := by
    unfold getFromCache
    rw [hl]
    simp [h2]
  rw [hres]
  exact ⟨rfl, AList.lookup_erase_self _ _⟩

/-- Witness for C5: ttl 1 written at instants 0/0, read at instant 2. -/
theorem get_after_expiry_witness :
    (0 : Nat) < 1 ∧ (0 : Nat) ≤ 0 ∧ 0 + 1 < 2 ∧
    ((getFromCache 2 "k" (saveToCache "k" (CacheData.list []) 1 0 0 [])).1 =
      none ∧
    ((getFromCache 2 "k" (saveToCache "k" (CacheData.list []) 1 0 0 [])).2).lookup
      "k" = none) :=
  ⟨by decide, by decide, by decide,
    get_after_expiry "k" (CacheData.list []) 1 0 0 2 [] (by decide) (by decide)
      (by decide)⟩

/-- C6: with the list cache populated, a successful `createPictogram`
returns the created record, removes the list-projection entry (leaving
every other key, in particular entity keys, untouched — no
pre-population), and the next unfiltered `listPictograms` goes to the
network and re-caches the fresh collection under the list key. -/
theorem create_invalidates_list (s : Store) (e : CacheEntry)
    (p : PictogramObj) (st1 st2 : Nat) (body : List PictogramObj)
    (now t1 t2 : Nat)
    (_hpop : s.lookup LIST_CACHE_KEY = some e)
    (h1 : respOk st1 = true) (h2 : respOk st2 = true) :
    (createPictogram (.response st1 p) s).1 = Except.ok p ∧
    ((createPictogram (.response st1 p) s).2).lookup LIST_CACHE_KEY = none ∧
    (∀ k, k ≠ LIST_CACHE_KEY →
      ((createPictogram (.response st1 p) s).2).lookup k = s.lookup k) ∧
    (listPictograms none (.response st2 body) now t1 t2
      (createPictogram (.response st1 p) s).2).usedNetwork = true ∧
    (listPictograms none (.response st2 body) now t1 t2
      (createPictogram (.response st1 p) s).2).result =
      Except.ok (.list body) ∧
    ((listPictograms none (.response st2 body) now t1 t2
      (createPictogram (.response st1 p) s).2).store).lookup LIST_CACHE_KEY =
      some { data := CacheData.list body, timestamp := t1,
             expiresAt := t2 + CACHE_TTL } := by
  have hs2 : (createPictogram (.response st1 p) s).2 =
      AList.erase s LIST_CACHE_KEY := by
    simp [createPictogram, h1, invalidatePictogramListCache, deleteFromCache]
  have hmiss : (AList.erase s LIST_CACHE_KEY).lookup LIST_CACHE_KEY = none :=
    AList.lookup_erase_self _ _
  have hg : getFromCache now LIST_CACHE_KEY (AList.erase s LIST_CACHE_KEY) =
      (none, AList.erase s LIST_CACHE_KEY) := by
    unfold getFromCache
    rw [hmiss]
  have hlist : listPictograms none (.response st2 body) now t1 t2
      (AList.erase s LIST_CACHE_KEY) =
      ⟨Except.ok (.list body),
        saveToCache LIST_CACHE_KEY (.list body) CACHE_TTL t1 t2
          (AList.erase s LIST_CACHE_KEY), true⟩ := by
    unfold listPictograms
    rw [hg]
    simp [h2]
  refine ⟨by simp [createPictogram, h1], ?_, ?_, ?_, ?_, ?_⟩
  · rw [hs2]; exact hmiss
  · intro k hk
    rw [hs2]
    exact AList.lookup_erase_ne s LIST_CACHE_KEY k hk
  · rw [hs2, hlist]
  · rw [hs2, hlist]
  · rw [hs2, hlist]
    exact AList.lookup_insert_self _ _ _

/-- Witness for C6 on a concrete populated store with 200 responses. -/
theorem create_invalidates_list_witness :
    sampleStore.lookup LIST_CACHE_KEY = some sampleEntry ∧
    respOk 200 = true ∧
    ((createPictogram (.response 200 samplePic) sampleStore).1 =
      Except.ok samplePic ∧
    ((createPictogram (.response 200 samplePic) sampleStore).2).lookup
      LIST_CACHE_KEY = none ∧
    (∀ k, k ≠ LIST_CACHE_KEY →
      ((createPictogram (.response 200 samplePic) sampleStore).2).lookup k =
        sampleStore.lookup k) ∧
    (listPictograms none (.response 200 [samplePic]) 20 20 20
      (createPictogram (.response 200 samplePic) sampleStore).2).usedNetwork =
      true ∧
    (listPictograms none (.response 200 [samplePic]) 20 20 20
      (createPictogram (.response 200 samplePic) sampleStore).2).result =
      Except.ok (.list [samplePic]) ∧
    ((listPictograms none (.response 200 [samplePic]) 20 20 20
      (createPictogram (.response 200 samplePic) sampleStore).2).store).lookup
      LIST_CACHE_KEY =
      some { data := CacheData.list [samplePic], timestamp := 20,
             expiresAt := 20 + CACHE_TTL }) :=
  ⟨by decide, by decide,
    create_invalidates_list sampleStore sampleEntry samplePic 200 200
      [samplePic] 20 20 20 (by decide) (by decide) (by decide)⟩

/-- C7: the network-first strategy always returns the live response when
the fetch resolves; it stores a copy exactly for ok GET responses (ok
non-GET responses leave the partition unchanged); and when the fetch
rejects it serves the stored copy if one exists for the request identity,
else propagates the failure. -/
theorem networkFirst_policy (req : Request) (resp : SWResponse)
    (c : SWCache) :
    (networkFirstStrategy req (.success resp) c).1 =
      Except.ok (some resp) ∧
    (respOk resp.status = true → req.method = "GET" →
      (networkFirstStrategy req (.success resp) c).2 = c.insert req resp) ∧
    (respOk resp.status = true → req.method ≠ "GET" →
      (networkFirstStrategy req (.success resp) c).2 = c) ∧
    (∀ r, c.lookup req = some r →
      networkFirstStrategy req .reject c = (Except.ok (some r), c)) ∧
    (c.lookup req = none →
      (networkFirstStrategy req .reject c).1 = Except.error ()) := by
  refine ⟨?_, ?_, ?_, ?_, ?_⟩
  · unfold networkFirstStrategy
    by_cases h : respOk resp.status && req.method == "GET" <;> simp [h]
  · intro ha hb; simp [networkFirstStrategy, ha, hb]
  · intro ha hb; simp [networkFirstStrategy, ha, hb]
  · intro r hr; simp [networkFirstStrategy, hr]
  · intro hr; simp [networkFirstStrategy, hr]

/-- Witness for C7: an ok GET is cached, an ok POST is not, a rejected
fetch is served from a populated partition and propagated on an empty
one. -/
theorem networkFirst_policy_witness :
    (respOk sampleResp.status = true ∧
      (networkFirstStrategy sampleReq (.success sampleResp) []).2 =
        AList.insert [] sampleReq sampleResp) ∧
    (samplePost.method ≠ "GET" ∧
      (networkFirstStrategy samplePost (.success sampleResp) []).2 = []) ∧
    (([(sampleReq, sampleResp)] : SWCache).lookup sampleReq =
        some sampleResp ∧
      networkFirstStrategy sampleReq .reject [(sampleReq, sampleResp)] =
        (Except.ok (some sampleResp), [(sampleReq, sampleResp)])) ∧
    (([] : SWCache).lookup sampleReq = none ∧
      (networkFirstStrategy sampleReq .reject []).1 = Except.error ()) :=
  ⟨⟨by decide,
      (networkFirst_policy sampleReq sampleResp []).2.1 (by decide) rfl⟩,
    ⟨by decide,
      (networkFirst_policy samplePost sampleResp []).2.2.1 (by decide)
        (by decide)⟩,
    ⟨by decide,
      (networkFirst_policy sampleReq sampleResp
        [(sampleReq, sampleResp)]).2.2.2.1 sampleResp (by decide)⟩,
    ⟨by decide,
      (networkFirst_policy sampleReq sampleResp []).2.2.2.2 (by decide)⟩⟩

/-- C8: the cache-first strategy serves a stored copy without regard to
the network (the same result for every fetch outcome); on a miss it
fetches and, for an ok response, stores a copy before returning it;
consequently two sequential fetches of one media URL, the network
failing after the first success, both succeed — the second from cache. -/
theorem cacheFirst_policy (req : Request) (resp r : SWResponse)
    (c : SWCache) :
    (∀ net, c.lookup req = some r →
      cacheFirstStrategy req net c = (Except.ok (some r), c)) ∧
    (c.lookup req = none → respOk resp.status = true →
      cacheFirstStrategy req (.success resp) c =
        (Except.ok (some resp), c.insert req resp)) ∧
    (c.lookup req = none → respOk resp.status = true →
      cacheFirstStrategy req .reject
        ((cacheFirstStrategy req (.success resp) c).2) =
        (Except.ok (some resp),
          (cacheFirstStrategy req (.success resp) c).2)) := by
  refine ⟨?_, ?_, ?_⟩
  · intro net hr; simp [cacheFirstStrategy, hr]
  · intro hm ho; simp [cacheFirstStrategy, hm, ho]
  · intro hm ho
    have hc2 : (cacheFirstStrategy req (.success resp) c).2 =
        c.insert req resp := by
      simp [cacheFirstStrategy, hm, ho]
    rw [hc2]
    simp [cacheFirstStrategy, AList.lookup_insert_self]

/-- Witness for C8: hit on a populated partition, miss-then-store on an
empty one, and the two-fetch offline scenario. -/
theorem cacheFirst_policy_witness :
    (([(sampleReq, sampleResp)] : SWCache).lookup sampleReq =
        some sampleResp ∧
      cacheFirstStrategy sampleReq .reject [(sampleReq, sampleResp)] =
        (Except.ok (some sampleResp), [(sampleReq, sampleResp)])) ∧
    (([] : SWCache).lookup sampleReq = none ∧ respOk sampleResp.status = true ∧
      cacheFirstStrategy sampleReq (.success sampleResp) [] =
        (Except.ok (some sampleResp), AList.insert [] sampleReq sampleResp) ∧
      cacheFirstStrategy sampleReq .reject
        ((cacheFirstStrategy sampleReq (.success sampleResp) []).2) =
        (Except.ok (some sampleResp),
          (cacheFirstStrategy sampleReq (.success sampleResp) []).2)) :=
  ⟨⟨by decide,
      (cacheFirst_policy sampleReq sampleResp sampleResp
        [(sampleReq, sampleResp)]).1 .reject (by decide)⟩,
    ⟨by decide, by decide,
      (cacheFirst_policy sampleReq sampleResp sampleResp []).2.1 (by decide)
        (by decide),
      (cacheFirst_policy sampleReq sampleResp sampleResp []).2.2 (by decide)
        (by decide)⟩⟩

/-- C9: in the stale-while-revalidate strategy, with no cached copy for
the request and a rejecting fetch, the strategy resolves with the absent
cached response (`undefined`, here `none`) instead of propagating the
fetch failure — the trailing `.catch(() => cachedResponse)` swallows it. -/
theorem swr_miss_reject_resolves_none (req : Request) (c : SWCache)
    (h : c.lookup req = none) :
    staleWhileRevalidateStrategy req .reject c = (none, c) := by
  simp [staleWhileRevalidateStrategy, h]

/-- Witness for C9 on the empty partition. -/
theorem swr_miss_reject_resolves_none_witness :
    ([] : SWCache).lookup sampleReq = none ∧
    staleWhileRevalidateStrategy sampleReq .reject [] = (none, []) :=
  ⟨rfl, swr_miss_reject_resolves_none sampleReq [] rfl⟩

/-- C10: the install handler issues `skipWaiting` for every install
environment (it branches on nothing, in particular not on any received
message), so every freshly installed proxy instance moves straight to
activation instead of remaining in the waiting state; the `SKIP_WAITING`
message is an independent, redundant trigger of the same effect. -/
theorem install_skipWaiting_unconditional (env : InstallEnv) :
    SWEffect.skipWaiting ∈ installHandler env ∧
    (∀ env2, installHandler env = installHandler env2) ∧
    lifecycleAfterInstall (installHandler env) = SWState.activating ∧
    messageHandler .skipWaitingMsg = [SWEffect.skipWaiting] := by
  refine ⟨?_, fun env2 => rfl, ?_, rfl⟩
  · simp [installHandler]
  · simp [lifecycleAfterInstall, installHandler]

end Leopictos
